import Mathlib

/- Verification of the NextFace pipeline (pipeline.py): the perspective
   projection matrix, the vertex-based rasterization path, the
   spherical-harmonics vertex shading, the landmark loss, the scene-parameter
   initialization and the constructor checks. -/

namespace NextFace

/-- torch.deg2rad, degrees to radians (used by perspectiveProjMatrix, line 319). -/
noncomputable def deg2rad (x : ℝ) : ℝ := x * Real.pi / 180

/-- perspectiveProjMatrix (pipeline.py lines 310-326): right-handed perspective
projection matrix with f = 1 / tan(deg2rad(fov) / 2). -/
noncomputable def perspectiveProjMatrix (fov aspect near far : ℝ) : Matrix (Fin 4) (Fin 4) ℝ :=
  let f : ℝ := 1 / Real.tan (deg2rad fov / 2)
  !![f / aspect, 0, 0, 0;
     0, f, 0, 0;
     0, 0, far / (far - near), -(far * near) / (far - near);
     0, 0, 1, 0]

/-- Fixed image width in computeVertexImage (line 259). -/
def vertexWidth : ℝ := 256

/-- Fixed image height in computeVertexImage (line 260). -/
def vertexHeight : ℝ := 256

/-- Fixed far plane in computeVertexImage (line 262). -/
def vertexFar : ℝ := 100

/-- Fixed near plane in computeVertexImage (line 263). -/
noncomputable def vertexNear : ℝ := 0.1

/-- Field of view computed from the focal length (line 261):
fov = 360 * atan(width / (2 * focal)) / pi. -/
noncomputable def vertexFov (focal : ℝ) : ℝ :=
  360 * Real.arctan (vertexWidth / (2 * focal)) / Real.pi

/-- Clip-space transform and perspective divide of one camera-space vertex
(lines 266-273): the homogeneous vertex (x, y, z, 1) is multiplied by the
projection matrix built from the focal-derived fov with aspect = width/height,
then divided by the resulting w component. -/
noncomputable def vertexNdc (focal : ℝ) (v : ℝ × ℝ × ℝ) : ℝ × ℝ × ℝ :=
  let M := perspectiveProjMatrix (vertexFov focal) (vertexWidth / vertexHeight) vertexNear vertexFar
  let clip := M.mulVec ![v.1, v.2.1, v.2.2, 1]
  (clip 0 / clip 3, clip 1 / clip 3, clip 2 / clip 3)

/-- Frustum test (lines 275-276): a vertex is kept iff |ndc.x| ≤ 1 and |ndc.y| ≤ 1. -/
abbrev vertexVisible (ndc : ℝ × ℝ × ℝ) : Prop := |ndc.1| ≤ 1 ∧ |ndc.2.1| ≤ 1

/-- Screen mapping (lines 281-282): (ndc + 1) / 2 * dimension. -/
noncomputable def toScreen (ndc : ℝ × ℝ × ℝ) : ℝ × ℝ :=
  ((ndc.1 + 1) / 2 * vertexWidth, (ndc.2.1 + 1) / 2 * vertexHeight)

/-- Python int(): truncation toward zero (line 293). -/
noncomputable def pyInt (x : ℝ) : ℤ := if 0 ≤ x then ⌊x⌋ else ⌈x⌉

/-- RGB color triple. -/
abbrev Color := ℝ × ℝ × ℝ

/-- Componentwise color addition (the += accumulation of line 296). -/
def addColor (u v : Color) : Color := (u.1 + v.1, u.2.1 + v.2.1, u.2.2 + v.2.2)

/-- Target pixel (row, column) of a vertex (lines 293-294): the screen
coordinates truncated by int(); none if the 0 ≤ x < width / 0 ≤ y < height
bound check of line 294 fails. -/
noncomputable def pixelOf (focal : ℝ) (v : ℝ × ℝ × ℝ) : Option (ℕ × ℕ) :=
  let s := toScreen (vertexNdc focal v)
  let x := pyInt s.1
  let y := pyInt s.2
  if 0 ≤ x ∧ x < 256 ∧ 0 ≤ y ∧ y < 256 then some (y.toNat, x.toNat) else none

/-- Splat one surviving vertex additively into the image buffer
(the loop body, lines 292-296): the pixel (j, i) receives vc's color added on
top of the current buffer exactly when it is the vertex's in-bounds target
pixel (image_data[y, x, :] += color). -/
noncomputable def splat (focal : ℝ) (img : ℕ → ℕ → Color) (vc : (ℝ × ℝ × ℝ) × Color) :
    ℕ → ℕ → Color :=
  fun j i => if pixelOf focal vc.1 = some (j, i) then addColor (img j i) vc.2 else img j i

/-- computeVertexImage for one batch element (lines 257-296): project the
vertices, drop the ones outside [-1,1] in x or y together with their colors
(lines 275-277, 286-287) and accumulate the surviving colors into a zeroed
256x256 buffer (lines 290-296). -/
noncomputable def computeVertexImage1 (focal : ℝ) (verts : List (ℝ × ℝ × ℝ))
    (cols : List Color) : ℕ → ℕ → Color :=
  ((verts.zip cols).filter fun vc => decide (vertexVisible (vertexNdc focal vc.1))).foldl
    (splat focal) fun _ _ => (0, 0, 0)

/-- Rendered image tensor: its dimensions and RGBA pixel contents. -/
structure RenderedImage where
  batch : ℕ
  height : ℕ
  width : ℕ
  pix : ℕ → ℕ → ℕ → ℝ × ℝ × ℝ × ℝ

/-- computeVertexImage (lines 257-308). The batched fov tensor built at
line 261 is embedded element-by-element into a python list of lists at
line 321 (torch.tensor), which raises ValueError unless the batch holds
exactly one focal; the accumulation buffer (line 290) is a single 256x256
image, the result receives leading dimension 1 (unsqueeze, line 299) and an
alpha channel of ones of shape (1, 256, 256, 1) (lines 301-302). -/
noncomputable def computeVertexImage (focals : List ℝ) (vertsB : List (List (ℝ × ℝ × ℝ)))
    (colsB : List (List Color)) : Option RenderedImage :=
  match focals, vertsB, colsB with
  | [focal], [verts], [cols] =>
      some { batch := 1, height := 256, width := 256,
             pix := fun _ j i =>
               let c := computeVertexImage1 focal verts cols j i
               (c.1, c.2.1, c.2.2, 1) }
  | _, _, _ => none

/-- Pinhole projection of the landmark vertices of one batch element
(lines 174-178): proj = focal * xy / z + center at each vertex selected by the
landmark association table. -/
noncomputable def landmarkProjections (assoc : List ℕ) (verts : List (ℝ × ℝ × ℝ))
    (focal : ℝ) (center : ℝ × ℝ) : List (ℝ × ℝ) :=
  assoc.map fun k =>
    let p := verts.getD k (0, 0, 0)
    (focal * p.1 / p.2.2 + center.1, focal * p.2.1 / p.2.2 + center.2)

/-- landmarkLoss (lines 158-185): the mean over batch and landmarks of the
squared euclidean pixel distance between the projected landmark vertices and
the supplied 2d landmarks (torch.mean over the n×K distance tensor). -/
noncomputable def landmarkLoss (assoc : List ℕ) (cameraVertices : List (List (ℝ × ℝ × ℝ)))
    (landmarks : List (List (ℝ × ℝ))) (focals : List ℝ)
    (cameraCenters : List (ℝ × ℝ)) : ℝ :=
  let projs := (cameraVertices.zip (focals.zip cameraCenters)).map fun b =>
    landmarkProjections assoc b.1 b.2.1 b.2.2
  let sq := (projs.zip landmarks).map fun pl =>
    ((pl.1.zip pl.2).map fun q => (q.1.1 - q.2.1) ^ 2 + (q.1.2 - q.2.2) ^ 2).sum
  sq.sum / ((cameraVertices.length * assoc.length : ℕ) : ℝ)

/-- Modelled from the spec: the band normalization constants a of the
SphericalHarmonics collaborator (self.sh.a, line 201), whose class is outside
src/; the spec calls them "the standard real-SH normalization constants a[l]
... per band l". -/
noncomputable def shA : Fin 3 → ℝ :=
  ![Real.pi, 2 * Real.pi / Real.sqrt 3, 2 * Real.pi / Real.sqrt 8]

/-- Modelled from the spec: the band normalization constants c of the
SphericalHarmonics collaborator (self.sh.c, line 201), outside src/. -/
noncomputable def shC : Fin 3 → ℝ :=
  ![1 / Real.sqrt (4 * Real.pi), Real.sqrt 3 / Real.sqrt (4 * Real.pi),
    3 * Real.sqrt 5 / Real.sqrt (12 * Real.pi)]

/-- SH basis row Y evaluated at one normal (lines 227-237). -/
noncomputable def shBasisY (a c : Fin 3 → ℝ) (nrm : ℝ × ℝ × ℝ) : Fin 9 → ℝ :=
  ![a 0 * c 0,
    -(a 1 * c 1) * nrm.2.1,
    a 1 * c 1 * nrm.2.2,
    -(a 1 * c 1) * nrm.1,
    a 2 * c 2 * (nrm.1 * nrm.2.1),
    -(a 2 * c 2) * (nrm.2.1 * nrm.2.2),
    1 / 2 * (a 2 * c 2) / Real.sqrt 3 * (3 * nrm.2.2 ^ 2 - 1),
    -(a 2 * c 2) * (nrm.1 * nrm.2.2),
    1 / 2 * (a 2 * c 2) * (nrm.1 ^ 2 - nrm.2.1 ^ 2)]

/-- The hard-coded gamma initialization (line 203: gammaInit = 0.1). -/
noncomputable def gammaInitVal : ℝ := 0.1

/-- The fixed default-lighting bias init_lit (line 209). -/
noncomputable def initLit : Fin 9 → ℝ := ![0.8, 0, 0, 0, 0, 0, 0, 0, 0]

/-- The gamma row the code actually uses (lines 203-213): gammaInit + init_lit,
identical for each of the three color channels. -/
noncomputable def gammaUsed : Fin 9 → ℝ := fun k => gammaInitVal + initLit k

/-- computeVertexColor (lines 188-255). The gamma argument is overwritten with
the hard-coded value before any use (line 205), so the supplied SH coefficients
never enter the computation. The diffuse texture resampling
(torch.nn.functional.interpolate, line 247) is an external library call; its
per-vertex output is taken here as the diffuseResampled argument. Every color
channel receives the same irradiance s (the three gamma channels are equal),
multiplied per channel by the resampled diffuse texture (line 253). -/
noncomputable def computeVertexColor (a c : Fin 3 → ℝ) (gamma : Option (List ℝ))
    (normals diffuseResampled : List (ℝ × ℝ × ℝ)) : List Color :=
  (normals.zip diffuseResampled).map fun nt =>
    let s := ∑ k : Fin 9, shBasisY a c nt.1 k * gammaUsed k
    (s * nt.2.1, s * nt.2.2.1, s * nt.2.2.2)

/-- Pipeline configuration fields consumed by initSceneParameters. -/
structure Config where
  camFocalLength : ℝ
  bands : ℕ

/-- Morphable-model dimensions (external collaborator, lines 60-75). -/
structure ModelDims where
  shapeBasisSize : ℕ
  albedoBasisSize : ℕ
  expBasisSize : ℕ
  textureResolution : ℕ

/-- The pipeline's scene-parameter state; none means not yet allocated. -/
structure PipelineState where
  sharedIdentity : Bool
  vShapeCoeff : Option (List (List ℝ))
  vAlbedoCoeff : Option (List (List ℝ))
  vExpCoeff : Option (List (List ℝ))
  vRotation : Option (List (ℝ × ℝ × ℝ))
  vTranslation : Option (List (ℝ × ℝ × ℝ))
  vFocals : Option (List ℝ)
  vShCoeffs : Option (List (List (ℝ × ℝ × ℝ)))
  vRoughness : Option (List (List (List (List ℝ))))

/-- Initial SH coefficient per basis row (lines 69-73): row 0 is 0.5, row 2 is
-0.5, the rest 0; channels 1 and 2 are copied from channel 0. -/
noncomputable def shInitEntry (j : ℕ) : ℝ := if j = 0 then 0.5 else if j = 2 then -0.5 else 0

/-- initSceneParameters (lines 46-76): n ≤ 0 returns with the state untouched
(lines 54-55); otherwise shape/albedo/roughness get leading dimension
nShape = 1 when sharedIdentity else n (line 58), the rest leading dimension n.
vRotation is zeros[n,3] with column 0 set to 3.14 (lines 64, 67); vTranslation
is zeros[n,3] with column 2 set to 500 (lines 65-66). -/
noncomputable def initSceneParameters (cfg : Config) (mm : ModelDims) (st : PipelineState)
    (n : ℤ) (sharedIdentity : Bool) : PipelineState :=
  if n ≤ 0 then st
  else
    let nN := n.toNat
    let nShape := if sharedIdentity then 1 else nN
    { sharedIdentity := sharedIdentity
      vShapeCoeff := some (List.replicate nShape (List.replicate mm.shapeBasisSize 0))
      vAlbedoCoeff := some (List.replicate nShape (List.replicate mm.albedoBasisSize 0))
      vExpCoeff := some (List.replicate nN (List.replicate mm.expBasisSize 0))
      vRotation := some (List.replicate nN (3.14, 0, 0))
      vTranslation := some (List.replicate nN (0, 0, 500))
      vFocals := some (List.replicate nN cfg.camFocalLength)
      vShCoeffs := some (List.replicate nN ((List.range (cfg.bands * cfg.bands)).map
        fun j => (shInitEntry j, shInitEntry j, shInitEntry j)))
      vRoughness := some (List.replicate nShape (List.replicate mm.textureResolution
        (List.replicate mm.textureResolution [0.4]))) }

/-- Landmark association file selection in the constructor (lines 26-31). -/
def landmarksAssociationFile (t : String) : Except String String :=
  if t = "fan" then Except.ok "/landmark_62.txt"
  else if t = "mediapipe" then Except.ok "/landmark_62_mp.txt"
  else Except.error ("lamdmarksDetectorType must be one of [mediapipe, fan] but was " ++ t)

/-- Pipeline construction (lines 16-43), reduced to the steps relevant to the
landmark-detector check: the association file is selected (lines 26-31) before
the MorphableModel is loaded from it (line 33); a raise short-circuits, so on
the error branch loadModel is never applied. -/
def pipelineInit {M : Type} (loadModel : String → M) (t : String) : Except String M :=
  (landmarksAssociationFile t).map loadModel

/-- Example configuration for concrete evaluations. -/
noncomputable def cfgEx : Config := { camFocalLength := 500, bands := 3 }

/-- Example model dimensions for concrete evaluations. -/
def mmEx : ModelDims :=
  { shapeBasisSize := 2, albedoBasisSize := 2, expBasisSize := 2, textureResolution := 2 }

/-- Unallocated pipeline state. -/
def emptyState : PipelineState :=
  { sharedIdentity := false, vShapeCoeff := none, vAlbedoCoeff := none, vExpCoeff := none,
    vRotation := none, vTranslation := none, vFocals := none, vShCoeffs := none,
    vRoughness := none }

/-- A previously allocated pipeline state, used for the n ≤ 0 early-return check. -/
noncomputable def allocatedState : PipelineState :=
  initSceneParameters cfgEx mmEx emptyState 2 false

/-- The f term of the projection matrix, evaluated at the focal-derived fov of
the vertex path: tan(deg2rad(fov)/2) collapses to width/(2*focal), so
f = focal/128. -/
theorem vertexF_eq (focal : ℝ) :
    1 / Real.tan (deg2rad (vertexFov focal) / 2) = focal / 128 := by
  have h1 : deg2rad (vertexFov focal) / 2 = Real.arctan (256 / (2 * focal)) := by
    unfold deg2rad vertexFov vertexWidth
    field_simp
    ring
  have h2 : (256 : ℝ) / (2 * focal) = 128 / focal := by
    rcases eq_or_ne focal 0 with h | h
    · simp [h]
    · field_simp
      ring
  rw [h1, Real.tan_arctan, h2, one_div_div]

/-- The normalized device x and y coordinates of the vertex path in closed
form: ndc.x = (focal/128) * x / z, ndc.y = (focal/128) * y / z. -/
theorem vertexNdc_xy (focal : ℝ) (v : ℝ × ℝ × ℝ) :
    (vertexNdc focal v).1 = focal / 128 * v.1 / v.2.2 ∧
    (vertexNdc focal v).2.1 = focal / 128 * v.2.1 / v.2.2 := by
  have hf := vertexF_eq focal
  constructor <;>
  · simp only [vertexNdc, perspectiveProjMatrix, Matrix.mulVec, Matrix.dotProduct,
      Fin.sum_univ_four, Matrix.cons_val', Matrix.cons_val_zero, Matrix.cons_val_one,
      Matrix.head_cons, Matrix.empty_val', Matrix.cons_val_fin_one, Matrix.head_fin_const,
      Matrix.cons_val_two, Matrix.cons_val_three, Matrix.tail_cons, Matrix.of_apply]
    rw [hf]
    simp [vertexWidth, vertexHeight]

/-- C1: perspectiveProjMatrix returns exactly the 4x4 matrix
[[f/aspect,0,0,0],[0,f,0,0],[0,0,far/(far-near),-(far*near)/(far-near)],[0,0,1,0]]
with f = 1/tan(radians(fov)/2), for every fov, aspect, near and far; its row 3
is [0,0,1,0]; and the vertex-based render path feeds it the fov
360*atan(width/(2*focal))/pi with width = 256 and the fixed constants
near = 0.1 and far = 100. -/
theorem perspectiveProjMatrix_spec (fov aspect near far focal : ℝ) :
    perspectiveProjMatrix fov aspect near far =
      !![1 / Real.tan (fov * Real.pi / 180 / 2) / aspect, 0, 0, 0;
         0, 1 / Real.tan (fov * Real.pi / 180 / 2), 0, 0;
         0, 0, far / (far - near), -(far * near) / (far - near);
         0, 0, 1, 0] ∧
    (∀ i, perspectiveProjMatrix fov aspect near far 3 i = ![0, 0, 1, 0] i) ∧
    vertexFov focal = 360 * Real.arctan (256 / (2 * focal)) / Real.pi ∧
    vertexWidth = 256 ∧ vertexHeight = 256 ∧ vertexNear = 0.1 ∧ vertexFar = 100 := by
  refine ⟨rfl, ?_, rfl, rfl, rfl, rfl, rfl⟩
  intro i
  fin_cases i <;> simp [perspectiveProjMatrix, Matrix.vecHead, Matrix.vecTail]

/-- C7: for n ≥ 1, initSceneParameters with sharedIdentity = true allocates
shapeCoeff, albedoCoeff and roughness with leading dimension 1 while expCoeff,
rotation, translation, focals and shCoeffs have leading dimension n; with
sharedIdentity = false every leading dimension equals n. -/
theorem initSceneParameters_dims (cfg : Config) (mm : ModelDims) (st : PipelineState)
    (n : ℤ) (h : 1 ≤ n) :
    (Option.map List.length (initSceneParameters cfg mm st n true).vShapeCoeff = some 1 ∧
     Option.map List.length (initSceneParameters cfg mm st n true).vAlbedoCoeff = some 1 ∧
     Option.map List.length (initSceneParameters cfg mm st n true).vRoughness = some 1 ∧
     Option.map List.length (initSceneParameters cfg mm st n true).vExpCoeff = some n.toNat ∧
     Option.map List.length (initSceneParameters cfg mm st n true).vRotation = some n.toNat ∧
     Option.map List.length (initSceneParameters cfg mm st n true).vTranslation = some n.toNat ∧
     Option.map List.length (initSceneParameters cfg mm st n true).vFocals = some n.toNat ∧
     Option.map List.length (initSceneParameters cfg mm st n true).vShCoeffs = some n.toNat) ∧
    (Option.map List.length (initSceneParameters cfg mm st n false).vShapeCoeff = some n.toNat ∧
     Option.map List.length (initSceneParameters cfg mm st n false).vAlbedoCoeff = some n.toNat ∧
     Option.map List.length (initSceneParameters cfg mm st n false).vRoughness = some n.toNat ∧
     Option.map List.length (initSceneParameters cfg mm st n false).vExpCoeff = some n.toNat ∧
     Option.map List.length (initSceneParameters cfg mm st n false).vRotation = some n.toNat ∧
     Option.map List.length (initSceneParameters cfg mm st n false).vTranslation = some n.toNat ∧
     Option.map List.length (initSceneParameters cfg mm st n false).vFocals = some n.toNat ∧
     Option.map List.length (initSceneParameters cfg mm st n false).vShCoeffs = some n.toNat) := by
  have hn : ¬ n ≤ 0 := by omega
  simp [initSceneParameters, hn]

/-- Witness for C7 at the spec's example n = 4. -/
theorem initSceneParameters_dims_witness :
    Option.map List.length (initSceneParameters cfgEx mmEx emptyState 4 true).vShapeCoeff
      = some 1 ∧
    Option.map List.length (initSceneParameters cfgEx mmEx emptyState 4 true).vExpCoeff
      = some (4 : ℤ).toNat ∧
    Option.map List.length (initSceneParameters cfgEx mmEx emptyState 4 false).vShapeCoeff
      = some (4 : ℤ).toNat := by
  have h := initSceneParameters_dims cfgEx mmEx emptyState 4 (by norm_num)
  exact ⟨h.1.1, h.1.2.2.2.1, h.2.1⟩

/-- C8 counterexample: at n = 1 the initialized rotation row is the literal
3.14 on the X axis (line 67), not π: the claim rotation = (π, 0, 0) is false
since 3.14 < π. -/
theorem initSceneParameters_rotation_not_pi :
    ¬ ((initSceneParameters cfgEx mmEx emptyState 1 false).vRotation =
         some [(Real.pi, 0, 0)] ∧
       (initSceneParameters cfgEx mmEx emptyState 1 false).vTranslation =
         some [(0, 0, 500)]) := by
  rintro ⟨h1, -⟩
  have h2 : (initSceneParameters cfgEx mmEx emptyState 1 false).vRotation =
      some [((3.14 : ℝ), 0, 0)] := by
    norm_num [initSceneParameters]
  rw [h2] at h1
  simp only [Option.some.injEq, List.cons.injEq, Prod.mk.injEq, and_true] at h1
  have hpi := Real.pi_gt_d6
  rw [← h1] at hpi
  norm_num at hpi

/-- C8 amended: after initSceneParameters(n) with n ≥ 1, every batch element's
rotation equals (3.14, 0, 0) — the X component is the literal 3.14, an
approximation of π, the others zero — and every translation equals (0, 0, 500). -/
theorem initSceneParameters_pose (cfg : Config) (mm : ModelDims) (st : PipelineState)
    (n : ℤ) (s : Bool) (h : 1 ≤ n) :
    (initSceneParameters cfg mm st n s).vRotation =
      some (List.replicate n.toNat ((3.14 : ℝ), 0, 0)) ∧
    (initSceneParameters cfg mm st n s).vTranslation =
      some (List.replicate n.toNat ((0 : ℝ), 0, 500)) := by
  have hn : ¬ n ≤ 0 := by omega
  simp [initSceneParameters, hn]

/-- Witness for the amended C8 at n = 1. -/
theorem initSceneParameters_pose_witness :
    (initSceneParameters cfgEx mmEx emptyState 1 false).vRotation =
      some (List.replicate (1 : ℤ).toNat ((3.14 : ℝ), 0, 0)) ∧
    (initSceneParameters cfgEx mmEx emptyState 1 false).vTranslation =
      some (List.replicate (1 : ℤ).toNat ((0 : ℝ), 0, 500)) :=
  initSceneParameters_pose cfgEx mmEx emptyState 1 false (by norm_num)

/-- C9: a landmark-detector type other than fan or mediapipe fails at
construction time with an error naming the invalid value and the allowed set,
and the model-load step is never reached (the selection error short-circuits
pipelineInit before loadModel is applied); fan and mediapipe proceed and select
the corresponding landmark-association file. -/
theorem pipelineInit_detectorType {M : Type} (loadModel : String → M) (t : String)
    (hfan : t ≠ "fan") (hmp : t ≠ "mediapipe") :
    pipelineInit loadModel t =
      Except.error ("lamdmarksDetectorType must be one of [mediapipe, fan] but was " ++ t) ∧
    pipelineInit loadModel "fan" = Except.ok (loadModel "/landmark_62.txt") ∧
    pipelineInit loadModel "mediapipe" = Except.ok (loadModel "/landmark_62_mp.txt") := by
  refine ⟨?_, by simp [pipelineInit, landmarksAssociationFile, Except.map],
    by simp [pipelineInit, landmarksAssociationFile, Except.map]⟩
  simp [pipelineInit, landmarksAssociationFile, hfan, hmp, Except.map]

/-- Witness for C9 at the invalid detector type "dlib". -/
theorem pipelineInit_detectorType_witness :
    pipelineInit (fun p => "MorphableModel " ++ p) "dlib" =
      Except.error ("lamdmarksDetectorType must be one of [mediapipe, fan] but was " ++ "dlib") ∧
    pipelineInit (fun p => "MorphableModel " ++ p) "fan" =
      Except.ok ((fun p => "MorphableModel " ++ p) "/landmark_62.txt") := by
  have h := pipelineInit_detectorType (fun p => "MorphableModel " ++ p) "dlib"
    (by decide) (by decide)
  exact ⟨h.1, h.2.1⟩

/-- C10: initSceneParameters with n ≤ 0 returns immediately without touching
any pipeline state: the sharedIdentity flag and all previously allocated
parameter tensors are exactly as before. -/
theorem initSceneParameters_nonpositive (cfg : Config) (mm : ModelDims)
    (st : PipelineState) (n : ℤ) (s : Bool) (h : n ≤ 0) :
    initSceneParameters cfg mm st n s = st := by
  simp [initSceneParameters, h]

/-- Witness for C10: n = 0 on an already-allocated state with the opposite
sharedIdentity flag leaves the state identical. -/
theorem initSceneParameters_nonpositive_witness :
    initSceneParameters cfgEx mmEx allocatedState 0 true = allocatedState :=
  initSceneParameters_nonpositive cfgEx mmEx allocatedState 0 true (by norm_num)

/-- A pixel that no vertex of the list targets is never written by the splat
loop. -/
theorem foldl_splat_untouched (focal : ℝ) (l : List ((ℝ × ℝ × ℝ) × Color))
    (img : ℕ → ℕ → Color) (j i : ℕ)
    (h : ∀ vc ∈ l, pixelOf focal vc.1 ≠ some (j, i)) :
    (l.foldl (splat focal) img) j i = img j i := by
  induction l generalizing img with
  | nil => rfl
  | cons vc t ih =>
    have hh := h vc (List.mem_cons_self vc t)
    have ht : ∀ x ∈ t, pixelOf focal x.1 ≠ some (j, i) := fun x hx =>
      h x (List.mem_cons_of_mem _ hx)
    rw [List.foldl_cons, ih _ ht]
    simp [splat, hh]

/-- C2: in the vertex-based render path a vertex whose normalized device
coordinates have |x| > 1 or |y| > 1 is culled — the image computed with it
present equals the image computed without it, so it contributes zero color to
every pixel — while a surviving vertex is mapped to pixel indices obtained by
(ndc+1)/2 * 256 truncated toward zero, where (when in range) its color lands. -/
theorem computeVertexImage1_culling (focal : ℝ) (v : ℝ × ℝ × ℝ) (c : Color)
    (vs : List (ℝ × ℝ × ℝ)) (cs : List Color) :
    (¬ vertexVisible (vertexNdc focal v) →
      computeVertexImage1 focal (v :: vs) (c :: cs) = computeVertexImage1 focal vs cs) ∧
    (vertexVisible (vertexNdc focal v) →
      ∀ x y : ℤ,
        x = pyInt (((vertexNdc focal v).1 + 1) / 2 * 256) →
        y = pyInt (((vertexNdc focal v).2.1 + 1) / 2 * 256) →
        0 ≤ x → x < 256 → 0 ≤ y → y < 256 →
        computeVertexImage1 focal [v] [c] y.toNat x.toNat = c) := by
  constructor
  · intro h
    have hd : decide (vertexVisible (vertexNdc focal v)) = false := decide_eq_false h
    unfold computeVertexImage1
    rw [List.zip_cons_cons, List.filter_cons, hd]
    simp
  · intro hvis x y hx hy hx0 hx1 hy0 hy1
    have hd : decide (vertexVisible (vertexNdc focal v)) = true := decide_eq_true hvis
    have hpix : pixelOf focal v = some (y.toNat, x.toNat) := by
      rw [pixelOf]
      simp only [toScreen, vertexWidth, vertexHeight]
      rw [← hx, ← hy]
      simp [hx0, hx1, hy0, hy1]
    unfold computeVertexImage1
    rw [show ([v].zip [c]) = [(v, c)] from rfl, List.filter_cons, hd]
    simp only [if_true, List.filter_nil, List.foldl_cons, List.foldl_nil]
    simp [splat, hpix, addColor]

/-- Witness for C2 with focal 128 (a 90° fov, so f = 1): the vertex (2, 0, 1)
has ndc x = 2 and is culled; the vertex (0.5, 0.5, 1) has ndc (0.5, 0.5),
survives, and its color lands at pixel row 192, column 192. -/
theorem computeVertexImage1_culling_witness :
    computeVertexImage1 128 [((2 : ℝ), 0, 1), (0.5, 0.5, 1)] [((1 : ℝ), 0, 0), (0, 1, 0)] =
      computeVertexImage1 128 [((0.5 : ℝ), 0.5, 1)] [((0 : ℝ), 1, 0)] ∧
    computeVertexImage1 128 [((0.5 : ℝ), 0.5, 1)] [((0 : ℝ), 1, 0)] 192 192 = (0, 1, 0) := by
  have hx1 : (vertexNdc 128 ((2 : ℝ), 0, 1)).1 = 2 := by
    rw [(vertexNdc_xy 128 ((2 : ℝ), 0, 1)).1]
    norm_num
  have hcull : ¬ vertexVisible (vertexNdc 128 ((2 : ℝ), 0, 1)) := by
    rintro ⟨ha, -⟩
    rw [hx1] at ha
    norm_num at ha
  have ha : (vertexNdc 128 ((0.5 : ℝ), 0.5, 1)).1 = 0.5 := by
    rw [(vertexNdc_xy 128 ((0.5 : ℝ), 0.5, 1)).1]
    norm_num
  have hb : (vertexNdc 128 ((0.5 : ℝ), 0.5, 1)).2.1 = 0.5 := by
    rw [(vertexNdc_xy 128 ((0.5 : ℝ), 0.5, 1)).2]
    norm_num
  have hvis : vertexVisible (vertexNdc 128 ((0.5 : ℝ), 0.5, 1)) := by
    constructor
    · rw [ha]; norm_num [abs_le]
    · rw [hb]; norm_num [abs_le]
  have hpx : (192 : ℤ) = pyInt (((vertexNdc 128 ((0.5 : ℝ), 0.5, 1)).1 + 1) / 2 * 256) := by
    rw [ha]
    norm_num [pyInt]
  have hpy : (192 : ℤ) = pyInt (((vertexNdc 128 ((0.5 : ℝ), 0.5, 1)).2.1 + 1) / 2 * 256) := by
    rw [hb]
    norm_num [pyInt]
  refine ⟨(computeVertexImage1_culling 128 _ _ _ _).1 hcull, ?_⟩
  have h := (computeVertexImage1_culling 128 ((0.5 : ℝ), 0.5, 1) ((0 : ℝ), 1, 0) [] []).2
    hvis 192 192 hpx hpy (by norm_num) (by norm_num) (by norm_num) (by norm_num)
  simpa using h

/-- C3: pixel colors accumulate additively — two distinct surviving vertices
whose screen coordinates truncate to the same in-range integer pixel produce
at that pixel exactly the sum of their two colors — and a pixel targeted by no
surviving vertex stays at (0, 0, 0). -/
theorem computeVertexImage1_additive (focal : ℝ) (v1 v2 : ℝ × ℝ × ℝ) (c1 c2 : Color)
    (jp ip : ℕ)
    (h1 : vertexVisible (vertexNdc focal v1)) (h2 : vertexVisible (vertexNdc focal v2))
    (hne : v1 ≠ v2)
    (hp1 : pixelOf focal v1 = some (jp, ip)) (hp2 : pixelOf focal v2 = some (jp, ip)) :
    computeVertexImage1 focal [v1, v2] [c1, c2] jp ip = addColor c1 c2 ∧
    ∀ (verts : List (ℝ × ℝ × ℝ)) (cols : List Color) (j i : ℕ),
      (∀ vc ∈ verts.zip cols,
        ¬ vertexVisible (vertexNdc focal vc.1) ∨ pixelOf focal vc.1 ≠ some (j, i)) →
      computeVertexImage1 focal verts cols j i = (0, 0, 0) := by
  constructor
  · have d1 : decide (vertexVisible (vertexNdc focal v1)) = true := decide_eq_true h1
    have d2 : decide (vertexVisible (vertexNdc focal v2)) = true := decide_eq_true h2
    unfold computeVertexImage1
    rw [show ([v1, v2].zip [c1, c2]) = [(v1, c1), (v2, c2)] from rfl]
    rw [List.filter_cons, d1, List.filter_cons, d2]
    simp only [if_true, List.filter_nil, List.foldl_cons, List.foldl_nil]
    simp [splat, hp1, hp2, addColor]
  · intro verts cols j i hno
    unfold computeVertexImage1
    rw [foldl_splat_untouched]
    intro vc hvc
    have hmem := List.mem_filter.1 hvc
    rcases hno vc hmem.1 with h | h
    · exact absurd (of_decide_eq_true hmem.2) h
    · exact h

/-- Witness for C3 with focal 128: (0.5, 0.5, 1) and (0.25, 0.25, 0.5) are
distinct vertices with the same ndc (0.5, 0.5), so their colors sum at pixel
(192, 192). -/
theorem computeVertexImage1_additive_witness :
    computeVertexImage1 128 [((0.5 : ℝ), 0.5, 1), (0.25, 0.25, 0.5)]
      [((1 : ℝ), 2, 3), (10, 20, 30)] 192 192 = addColor (1, 2, 3) (10, 20, 30) := by
  have ha1 : (vertexNdc 128 ((0.5 : ℝ), 0.5, 1)).1 = 0.5 := by
    rw [(vertexNdc_xy 128 ((0.5 : ℝ), 0.5, 1)).1]; norm_num
  have hb1 : (vertexNdc 128 ((0.5 : ℝ), 0.5, 1)).2.1 = 0.5 := by
    rw [(vertexNdc_xy 128 ((0.5 : ℝ), 0.5, 1)).2]; norm_num
  have ha2 : (vertexNdc 128 ((0.25 : ℝ), 0.25, 0.5)).1 = 0.5 := by
    rw [(vertexNdc_xy 128 ((0.25 : ℝ), 0.25, 0.5)).1]; norm_num
  have hb2 : (vertexNdc 128 ((0.25 : ℝ), 0.25, 0.5)).2.1 = 0.5 := by
    rw [(vertexNdc_xy 128 ((0.25 : ℝ), 0.25, 0.5)).2]; norm_num
  have h1 : vertexVisible (vertexNdc 128 ((0.5 : ℝ), 0.5, 1)) := by
    constructor
    · rw [ha1]; norm_num [abs_le]
    · rw [hb1]; norm_num [abs_le]
  have h2 : vertexVisible (vertexNdc 128 ((0.25 : ℝ), 0.25, 0.5)) := by
    constructor
    · rw [ha2]; norm_num [abs_le]
    · rw [hb2]; norm_num [abs_le]
  have hp1 : pixelOf 128 ((0.5 : ℝ), 0.5, 1) = some (192, 192) := by
    rw [pixelOf]
    simp only [toScreen, vertexWidth, vertexHeight, ha1, hb1]
    norm_num [pyInt]
    decide
  have hp2 : pixelOf 128 ((0.25 : ℝ), 0.25, 0.5) = some (192, 192) := by
    rw [pixelOf]
    simp only [toScreen, vertexWidth, vertexHeight, ha2, hb2]
    norm_num [pyInt]
    decide
  exact (computeVertexImage1_additive 128 _ _ _ _ 192 192 h1 h2 (by norm_num) hp1 hp2).1

/-- Squared-distance sum of a point list against itself is zero. -/
theorem sumSq_self (P : List (ℝ × ℝ)) :
    ((P.zip P).map fun q => (q.1.1 - q.2.1) ^ 2 + (q.1.2 - q.2.2) ^ 2).sum = 0 := by
  induction P with
  | nil => simp
  | cons p t ih => simp [ih]

/-- Squared-distance sum of a point list against its x-shifted copy is
length * d^2. -/
theorem sumSq_shift (P : List (ℝ × ℝ)) (d : ℝ) :
    ((P.zip (P.map fun p => (p.1 + d, p.2))).map
      fun q => (q.1.1 - q.2.1) ^ 2 + (q.1.2 - q.2.2) ^ 2).sum = P.length * d ^ 2 := by
  induction P with
  | nil => simp
  | cons p t ih =>
    simp only [List.map_cons, List.zip_cons_cons, List.sum_cons, ih, List.length_cons]
    push_cast
    ring

/-- The landmark-loss numerator over a batch evaluated at exactly the
projected points. -/
theorem landmarkLoss_sum_self (assoc : List ℕ)
    (base : List ((List (ℝ × ℝ × ℝ)) × (ℝ × (ℝ × ℝ)))) :
    (((base.map fun b => landmarkProjections assoc b.1 b.2.1 b.2.2).zip
        (base.map fun b => landmarkProjections assoc b.1 b.2.1 b.2.2)).map
      fun pl => ((pl.1.zip pl.2).map
        fun q => (q.1.1 - q.2.1) ^ 2 + (q.1.2 - q.2.2) ^ 2).sum).sum = 0 := by
  induction base with
  | nil => simp
  | cons b t ih =>
    simp only [List.map_cons, List.zip_cons_cons, List.map_cons, List.sum_cons, ih]
    rw [sumSq_self]
    simp

/-- The landmark-loss numerator over a batch evaluated at the projected points
shifted by (d, 0). -/
theorem landmarkLoss_sum_shift (assoc : List ℕ) (d : ℝ)
    (base : List ((List (ℝ × ℝ × ℝ)) × (ℝ × (ℝ × ℝ)))) :
    (((base.map fun b => landmarkProjections assoc b.1 b.2.1 b.2.2).zip
        (base.map fun b => (landmarkProjections assoc b.1 b.2.1 b.2.2).map
          fun p => (p.1 + d, p.2))).map
      fun pl => ((pl.1.zip pl.2).map
        fun q => (q.1.1 - q.2.1) ^ 2 + (q.1.2 - q.2.2) ^ 2).sum).sum =
      base.length * (assoc.length * d ^ 2) := by
  induction base with
  | nil => simp
  | cons b t ih =>
    simp only [List.map_cons, List.zip_cons_cons, List.sum_cons, ih, List.length_cons]
    rw [sumSq_shift]
    simp only [landmarkProjections, List.length_map]
    push_cast
    ring

/-- C5: with every selected landmark depth z > 0, landmarkLoss projects the
association-table vertices by proj = focal * xy / z + center and averages the
squared euclidean pixel distances over batch and landmarks: supplying exactly
the projected points as landmarks gives loss 0, and supplying them shifted by
(d, 0) gives loss d^2. -/
theorem landmarkLoss_spec (assoc : List ℕ) (cvs : List (List (ℝ × ℝ × ℝ)))
    (focals : List ℝ) (centers : List (ℝ × ℝ)) (d : ℝ)
    (hn : cvs ≠ []) (hK : assoc ≠ [])
    (hf : focals.length = cvs.length) (hc : centers.length = cvs.length)
    (hz : ∀ verts ∈ cvs, ∀ k ∈ assoc, 0 < (verts.getD k (0, 0, 0)).2.2) :
    landmarkLoss assoc cvs
      ((cvs.zip (focals.zip centers)).map fun b =>
        landmarkProjections assoc b.1 b.2.1 b.2.2) focals centers = 0 ∧
    landmarkLoss assoc cvs
      ((cvs.zip (focals.zip centers)).map fun b =>
        (landmarkProjections assoc b.1 b.2.1 b.2.2).map fun p => (p.1 + d, p.2))
      focals centers = d ^ 2 := by
  have hbase : (cvs.zip (focals.zip centers)).length = cvs.length := by
    simp [List.length_zip, hf, hc]
  have hn0 : (cvs.length : ℝ) ≠ 0 := Nat.cast_ne_zero.mpr (List.length_pos.2 hn).ne'
  have hK0 : (assoc.length : ℝ) ≠ 0 := Nat.cast_ne_zero.mpr (List.length_pos.2 hK).ne'
  constructor
  · simp only [landmarkLoss]
    rw [landmarkLoss_sum_self, zero_div]
  · simp only [landmarkLoss]
    rw [landmarkLoss_sum_shift, hbase]
    push_cast
    field_simp
    ring

/-- Witness for C5: one batch element, one landmark at camera point (0,0,1),
focal 1, center (0,0); exact landmarks give loss 0 and a (3,0) shift gives
loss 9. -/
theorem landmarkLoss_spec_witness :
    landmarkLoss [0] [[((0 : ℝ), 0, 1)]]
      (([[((0 : ℝ), 0, 1)]].zip ([(1 : ℝ)].zip [((0 : ℝ), 0)])).map fun b =>
        landmarkProjections [0] b.1 b.2.1 b.2.2) [(1 : ℝ)] [((0 : ℝ), 0)] = 0 ∧
    landmarkLoss [0] [[((0 : ℝ), 0, 1)]]
      (([[((0 : ℝ), 0, 1)]].zip ([(1 : ℝ)].zip [((0 : ℝ), 0)])).map fun b =>
        (landmarkProjections [0] b.1 b.2.1 b.2.2).map fun p => (p.1 + 3, p.2))
      [(1 : ℝ)] [((0 : ℝ), 0)] = 3 ^ 2 := by
  refine landmarkLoss_spec [0] [[((0 : ℝ), 0, 1)]] [(1 : ℝ)] [((0 : ℝ), 0)] 3
    (by simp) (by simp) rfl rfl ?_
  intro verts hv k hk
  simp only [List.mem_singleton] at hv hk
  subst hv
  subst hk
  norm_num

/-- The irradiance the code computes at normal (0, 0, 1) with the standard
constants and the hard-coded gamma is strictly positive. -/
theorem shSum_up_pos :
    0 < ∑ k : Fin 9, shBasisY shA shC ((0 : ℝ), 0, 1) k * gammaUsed k := by
  have hpi := Real.pi_pos
  have h3 : (0 : ℝ) < Real.sqrt 3 := Real.sqrt_pos.2 (by norm_num)
  have h5 : (0 : ℝ) < Real.sqrt 5 := Real.sqrt_pos.2 (by norm_num)
  have h8 : (0 : ℝ) < Real.sqrt 8 := Real.sqrt_pos.2 (by norm_num)
  have h4p : (0 : ℝ) < Real.sqrt (4 * Real.pi) := Real.sqrt_pos.2 (by positivity)
  have h12p : (0 : ℝ) < Real.sqrt (12 * Real.pi) := Real.sqrt_pos.2 (by positivity)
  simp only [Fin.sum_univ_succ, Finset.univ_eq_empty, Finset.sum_empty, shBasisY, shA, shC,
    gammaUsed, gammaInitVal, initLit, Matrix.cons_val_zero, Matrix.cons_val_succ,
    Matrix.cons_val_one, Matrix.head_cons]
  norm_num
  positivity

/-- C6 counterexample: with the standard band constants, an all-zero
SH-coefficient argument, the unit normal (0, 0, 1), and an all-ones resampled
texture (so the output is the raw irradiance), computeVertexColor returns a
strictly positive color rather than zero — the coefficient argument is ignored
and the hard-coded gamma 0.1 plus 0.8 DC bias is evaluated instead. -/
theorem computeVertexColor_zero_coeffs_counterexample :
    computeVertexColor shA shC (some (List.replicate 27 0)) [((0 : ℝ), 0, 1)]
      [((1 : ℝ), 1, 1)] ≠ [((0 : ℝ), 0, 0)] := by
  intro h
  have h2 : (∑ k : Fin 9, shBasisY shA shC ((0 : ℝ), 0, 1) k * gammaUsed k) * 1 = 0 := by
    have h1 := congrArg (fun l => (l.headI).1) h
    simpa [computeVertexColor] using h1
  rw [mul_one] at h2
  exact absurd h2 (ne_of_gt shSum_up_pos)

/-- C6 amended: computeVertexColor is independent of the supplied SH
coefficients — the hard-coded gamma (0.1 plus the 0.8 DC bias) is used — and
there is no lighting-only mode: the irradiance is always multiplied per
channel by the resampled diffuse texture. In particular an all-zero resampled
texture suffices for an all-zero output, for every set of normals (only this
direction holds: a zero color can also arise from a normal where the
irradiance vanishes). -/
theorem computeVertexColor_gamma_independent (a c : Fin 3 → ℝ)
    (g1 g2 : Option (List ℝ)) (normals tex : List (ℝ × ℝ × ℝ)) :
    computeVertexColor a c g1 normals tex = computeVertexColor a c g2 normals tex ∧
    ((∀ t ∈ tex, t = ((0 : ℝ), (0 : ℝ), (0 : ℝ))) →
      computeVertexColor a c g1 normals tex =
        List.replicate (min normals.length tex.length) ((0 : ℝ), 0, 0)) := by
  refine ⟨rfl, fun hz => ?_⟩
  rw [List.eq_replicate_iff]
  constructor
  · simp [computeVertexColor]
  · intro b hb
    simp only [computeVertexColor, List.mem_map] at hb
    obtain ⟨nt, hnt, rfl⟩ := hb
    obtain ⟨n1, t1⟩ := nt
    have ht := hz t1 (List.of_mem_zip hnt).2
    rw [ht]
    simp

/-- Witness for the amended C6: two different coefficient arguments give equal
outputs, and the all-zero texture yields the all-zero color list. -/
theorem computeVertexColor_gamma_independent_witness :
    computeVertexColor shA shC (some (List.replicate 27 0)) [((0 : ℝ), 0, 1)]
      [((0 : ℝ), 0, 0)] =
      computeVertexColor shA shC none [((0 : ℝ), 0, 1)] [((0 : ℝ), 0, 0)] ∧
    computeVertexColor shA shC (some (List.replicate 27 0)) [((0 : ℝ), 0, 1)]
      [((0 : ℝ), 0, 0)] = [((0 : ℝ), 0, 0)] := by
  have h := computeVertexColor_gamma_independent shA shC (some (List.replicate 27 0)) none
    [((0 : ℝ), 0, 1)] [((0 : ℝ), 0, 0)]
  exact ⟨h.1, by simpa using h.2 (by simp)⟩

/-- C4 (evaluation of the code's batch behavior): the batched vertex render
never produces leading dimension n — with two focals the projection-matrix
construction fails (result none), refuting shape [n,256,256,4] at n = 2, while
for n = 1 the output exists with dimensions [1,256,256,4] and alpha
identically 1. -/
theorem computeVertexImage_batch_shape :
    computeVertexImage [128, 128] [[((0 : ℝ), 0, 1)], [((0 : ℝ), 0, 1)]]
      [[((1 : ℝ), 1, 1)], [((1 : ℝ), 1, 1)]] = none ∧
    ∀ (focal : ℝ) (verts : List (ℝ × ℝ × ℝ)) (cols : List Color),
      ∃ img : RenderedImage,
        computeVertexImage [focal] [verts] [cols] = some img ∧
        img.batch = 1 ∧ img.height = 256 ∧ img.width = 256 ∧
        ∀ b j i, (img.pix b j i).2.2.2 = 1 := by
  exact ⟨rfl, fun focal verts cols => ⟨_, rfl, rfl, rfl, rfl, fun b j i => rfl⟩⟩

end NextFace
